import Mathlib

/- Shallow embedding of the HydroCare hydroponics frontend
   (balsemtouati/Assistant_Intelligent_Hydroponique).

   The repository is a static HTML/CSS/JS frontend.  The files embedded here:
   - frontend/js/app.js     : auth-form validation and the chat client (IIFE);
   - frontend/js/dashboard.js : disease-detection upload page;
   - frontend/js/parametres.js : plant-parameter analysis.

   Modelling conventions:
   - DOM and localStorage state relevant to the verified claims is carried in
     explicit state structures; each event handler becomes a state transition
     that additionally returns the list of network requests it issues.
   - `fetch` results are passed to the handler as an explicit outcome value
     (success payload, non-ok HTTP status, or network error), so an async
     handler body is split into the part before the await and the part after.
   - JS `undefined` on optional JSON fields is `Option.none`; the JS truthiness
     idiom `x || d` is modelled by dedicated helpers (`jsStrOr`, `scoreDisplay`)
     that treat the empty string and the number 0 as falsy, exactly as JS does.
   - JS numbers in parametres.js are modelled as rationals (`ℚ`); string
     rendering of numbers (`toFixed`, locale dates) is approximated by an
     explicit rational printer, which no claim depends on.
-/

namespace HydroCare

/-- JS `String.prototype.trim` as used on user-typed questions and form
values (app.js lines 305, 540, 617): strip leading and trailing whitespace;
over the frontend inputs involved the whitespace alphabet recognised by
`Char.isWhitespace` agrees with the JS one. -/
def jsTrim (s : String) : String :=
  String.mk (((s.toList.dropWhile Char.isWhitespace).reverse.dropWhile Char.isWhitespace).reverse)

/-- JS `x || d` for an optional string `x`: `undefined` and `""` are falsy. -/
def jsStrOr (x : Option String) (d : String) : String :=
  match x with
  | some s => if s = "" then d else s
  | none => d

/-- The network requests the frontend can issue: `POST /api/chat`,
`POST /api/reset-session` (app.js), and `POST /analyze` (dashboard.js). -/
inductive NetRequest where
  | chat (question : String) (session_id : String)
  | resetSession (session_id : String)
  | analyze (imageName : String) (imageSize : Nat)
  deriving DecidableEq

namespace ChatPage

/-- JSON body of a successful `/api/chat` response (app.js lines 568-581);
fields absent from the JSON are `none` (JS `undefined`). -/
structure ChatResponse where
  answer : Option String := none
  session_id : Option String := none
  faithfulness : Option Int := none
  completeness : Option Int := none
  decision : Option String := none
  sources : Option (List Nat) := none
  deriving DecidableEq

/-- The `metadata` object handed to `appendMessage` (app.js lines 577-582);
the call `appendMessage` with role user passes the default metadata. -/
structure Metadata where
  faithfulness : Option Int := none
  completeness : Option Int := none
  decision : Option String := none
  sources : Option (List Nat) := none
  deriving DecidableEq

/-- JS display of an optional numeric score with the or-fallback
(app.js line 490): `undefined` and the falsy number `0` both display as
the placeholder `N/A`. -/
def scoreDisplay (x : Option Int) : String :=
  match x with
  | none => "N/A"
  | some n => if n = 0 then ("N/A") else toString n

/-- One rendered chat-box message: role, text, the optional
evaluation-metrics block (fidelity display, completeness display) and the
optional sources block, as built by `appendMessage` (app.js 477-513). -/
structure RenderedMsg where
  role : String
  text : String
  metrics : Option (String × String)
  sources : Option (List Nat)
  deriving DecidableEq

/-- Function `appendMessage` of app.js 477-513.  The metrics
block is emitted iff `metadata.faithfulness !== undefined ||
metadata.completeness !== undefined`; the sources block iff
`metadata.sources && metadata.sources.length > 0`. -/
def appendMessage (role text : String) (metadata : Metadata) : RenderedMsg :=
  { role := role,
    text := text,
    metrics :=
      if metadata.faithfulness.isSome || metadata.completeness.isSome then
        some (scoreDisplay metadata.faithfulness, scoreDisplay metadata.completeness)
      else none,
    sources :=
      match metadata.sources with
      | some l => if l.length > 0 then some l else none
      | none => none }

/-- Chat-page client state: the in-memory `sessionId` and
`isWaitingForResponse` variables, the chat input field, the rendered
transcript (`chatBox` children) and the `hc_session_id` localStorage key. -/
structure ChatState where
  sessionId : String
  isWaitingForResponse : Bool
  inputValue : String
  inputDisabled : Bool
  transcript : List RenderedMsg
  storeSession : Option String
  deriving DecidableEq

/-- Page-load initialisation (app.js line 466): the session id is read
from the localStorage key `hc_session_id`, defaulting to the empty
string. -/
def initialChatState (stored : Option String) : ChatState :=
  { sessionId := jsStrOr stored (""),
    isWaitingForResponse := false,
    inputValue := "",
    inputDisabled := false,
    transcript := [],
    storeSession := stored }

/-- Result of the awaited `fetch` in `sendMessage`: parsed JSON of an ok
response, a non-ok HTTP status (thrown as `Erreur HTTP: <status>`), or a
rejected fetch with the error message. -/
inductive FetchOutcome where
  | ok (data : ChatResponse)
  | httpErr (status : Nat)
  | netErr (message : String)
  deriving DecidableEq

/-- The default API base `window.HC_API_BASE` of app.js line 458. -/
def API_BASE : String := "http://localhost:8000"

/-- JS `String.prototype.includes` on a non-empty pattern. -/
def strContains (s pat : String) : Bool := (s.splitOn pat).length > 1

/-- The user-facing error message built in the catch branch of
`sendMessage` (app.js 596-604). -/
def chatErrorText (emsg : String) : String :=
  let base := "Désolé, une erreur est survenue. "
  if strContains emsg ("Failed to fetch") || strContains emsg ("Network") then
    base ++ "Vérifiez que le serveur API est démarré sur " ++ API_BASE
  else if strContains emsg ("500") then
    base ++ "Erreur interne du serveur."
  else
    base ++ "Veuillez réessayer."

/-- The fallback answer used when `data.answer` is falsy (app.js 574). -/
def defaultAnswer : String := "Désolé, je n\x27ai pas pu traiter votre demande."

/-- The synchronous prefix of `sendMessage(question)` (app.js 539-562): the
guard `if (!question.trim() || isWaitingForResponse) return;`, then setting
the busy flag, disabling the input, appending the user message and issuing
the `POST /api/chat` fetch with body `{question, session_id: sessionId}`. -/
def sendMessageStart (question : String) (st : ChatState) : ChatState × List NetRequest :=
  if jsTrim question = "" || st.isWaitingForResponse then (st, [])
  else
    ({ st with
        isWaitingForResponse := true,
        inputDisabled := true,
        transcript := st.transcript ++ [appendMessage ("user") question {}] },
     [NetRequest.chat question st.sessionId])

/-- The continuation of `sendMessage` after the fetch resolves
(app.js 564-611): the try-branch on an ok response (session update,
localStorage write, bot message with metadata), the catch-branch on a
thrown HTTP error or network error (error message), and in every case the
finally-branch clearing the busy flag and re-enabling the input. -/
def sendMessageFinish (outcome : FetchOutcome) (st : ChatState) : ChatState :=
  match outcome with
  | .ok data =>
      let newSession := jsStrOr data.session_id st.sessionId
      let answer := jsStrOr data.answer defaultAnswer
      let metadata : Metadata :=
        { faithfulness := data.faithfulness,
          completeness := data.completeness,
          decision := data.decision,
          sources := some (data.sources.getD []) }
      { st with
          sessionId := newSession,
          storeSession := some newSession,
          transcript := st.transcript ++ [appendMessage ("bot") answer metadata],
          isWaitingForResponse := false,
          inputDisabled := false }
  | .httpErr status =>
      { st with
          transcript := st.transcript ++
            [appendMessage ("error")
              (chatErrorText ("Erreur HTTP: " ++ toString status)) {}],
          isWaitingForResponse := false,
          inputDisabled := false }
  | .netErr message =>
      { st with
          transcript := st.transcript ++ [appendMessage ("error") (chatErrorText message) {}],
          isWaitingForResponse := false,
          inputDisabled := false }

/-- A full run of `sendMessage(question)` with the given fetch outcome:
either the early return of the guard, or the start phase followed by the
resolution phase. -/
def sendMessage (question : String) (outcome : FetchOutcome) (st : ChatState) :
    ChatState × List NetRequest :=
  if jsTrim question = "" || st.isWaitingForResponse then (st, [])
  else
    (sendMessageFinish outcome (sendMessageStart question st).1,
     (sendMessageStart question st).2)

/-- The `chatForm` submit handler (app.js 615-622): trim the input value,
return if empty, otherwise clear the input and call `sendMessage`.  The
Enter-key handler (app.js 679-684) dispatches this same submit event. -/
def chatFormSubmit (outcome : FetchOutcome) (st : ChatState) : ChatState × List NetRequest :=
  let question := jsTrim st.inputValue
  if question = "" then (st, [])
  else sendMessage question outcome { st with inputValue := "" }

/-- A suggestion-button click (app.js 625-632): reads the `data-question`
attribute (absent attribute is `null`, falsy) and calls `sendMessage`. -/
def suggestionClick (dataQuestion : Option String) (outcome : FetchOutcome) (st : ChatState) :
    ChatState × List NetRequest :=
  match dataQuestion with
  | some q => if q = "" then (st, []) else sendMessage q outcome st
  | none => (st, [])

/-- The `resetSession` click handler (app.js 635-668): POST
`/api/reset-session` when a session id is present (its outcome is ignored
by the try/catch), then unconditionally clear the in-memory session id,
remove the `hc_session_id` localStorage key and empty the chat box. -/
def resetSessionClick (serverOk : Bool) (st : ChatState) : ChatState × List NetRequest :=
  let requests := if st.sessionId = "" then [] else [NetRequest.resetSession st.sessionId]
  ({ st with sessionId := "", storeSession := none, transcript := [] }, requests)

/-- The chat-page logout handler (app.js 671-676): removes `hc_session_id`
(plus the auth keys, not part of this state) and navigates away. -/
def logoutClick (st : ChatState) : ChatState × List NetRequest :=
  ({ st with storeSession := none }, [])

/-- The user-visible events of the chat page.  Each carries the outcome of
the fetch it may issue; `typeInput` models the user editing the input. -/
inductive ChatEvent where
  | formSubmit (outcome : FetchOutcome)
  | suggestion (dataQuestion : Option String) (outcome : FetchOutcome)
  | typeInput (s : String)
  | reset (serverOk : Bool)
  | logout
  deriving DecidableEq

/-- Dispatch of one chat-page event to its handler. -/
def chatStep (e : ChatEvent) (st : ChatState) : ChatState × List NetRequest :=
  match e with
  | .formSubmit outcome => chatFormSubmit outcome st
  | .suggestion dq outcome => suggestionClick dq outcome st
  | .typeInput s => if st.inputDisabled then (st, []) else ({ st with inputValue := s }, [])
  | .reset serverOk => resetSessionClick serverOk st
  | .logout => logoutClick st

/-- Running a sequence of chat-page events, accumulating issued requests. -/
def runTrace (events : List ChatEvent) (st : ChatState) : ChatState × List NetRequest :=
  match events with
  | [] => (st, [])
  | e :: rest =>
      let p := chatStep e st
      let q := runTrace rest p.1
      (q.1, p.2 ++ q.2)

/-- A fetch outcome echoes session `s` when it is an error or its
`session_id` field is absent, empty, or equal to `s` — the server contract
stated by the spec (`session_id` is echoed on subsequent calls). -/
def echoes (s : String) : FetchOutcome → Bool
  | .ok data =>
      match data.session_id with
      | none => true
      | some t => t == "" || t == s
  | .httpErr _ => true
  | .netErr _ => true

/-- An event preserves session `s` when it is not a reset or logout and any
chat response it carries echoes `s`. -/
def preservesSession (s : String) : ChatEvent → Bool
  | .formSubmit outcome => echoes s outcome
  | .suggestion _ outcome => echoes s outcome
  | .typeInput _ => true
  | .reset _ => false
  | .logout => false

end ChatPage

namespace Dashboard

/-- The properties of a JS `File` object the page reads: `name`, `size`
(bytes) and MIME `type`. -/
structure ImageFile where
  name : String
  size : Nat
  type : String
  deriving DecidableEq

/-- One saved analysis report (dashboard.js 411-417). -/
structure Report where
  date : String
  disease : String
  confidence : String
  image : String
  timestamp : Nat
  deriving DecidableEq

/-- JSON body of a successful `/analyze` response (dashboard.js 294-318);
absent fields are `none`. -/
structure AnalyzeResult where
  disease : Option String := none
  confidence : Option Nat := none
  description : Option String := none
  severity : Option String := none
  recommendations : Option (List String) := none
  deriving DecidableEq

/-- Disease-detection page state: the module variable `currentImageFile`,
the analyze button, the displayed result fields and the
`hc_analysis_history` localStorage list. -/
structure DashState where
  currentImageFile : Option ImageFile
  analyzeBtnDisabled : Bool
  analyzeBtnLabel : String
  previewShown : Bool
  displayedDisease : String
  displayedDescription : String
  displayedConfidence : String
  diagnosisIcon : String
  diagnosisTitle : String
  recommendations : List String
  history : List Report
  deriving DecidableEq

/-- Function `showError` of dashboard.js 383-402. -/
def showError (message : String) (st : DashState) : DashState :=
  { st with
      displayedDisease := "Erreur",
      displayedDescription := message,
      diagnosisIcon := "❌",
      diagnosisTitle := "Erreur",
      displayedConfidence := "0%",
      recommendations := ["Veuillez réessayer avec une autre image"] }

/-- Function `handleImageFile` of dashboard.js 232-252: reject files over
10MB before any network interaction; otherwise record the file, show the
preview (the `FileReader.onload` callback) and enable the analyze button. -/
def handleImageFile (file : ImageFile) (st : DashState) : DashState :=
  if file.size > 10 * 1024 * 1024 then
    showError ("L\x27image est trop volumineuse. Maximum 10MB.") st
  else
    { st with currentImageFile := some file, previewShown := true, analyzeBtnDisabled := false }

/-- Functions `handleImageSelect` and `handleDrop` of dashboard.js
215-230: only files
whose MIME type starts with `image/` reach `handleImageFile`. -/
def handleImageSelect (file : Option ImageFile) (st : DashState) : DashState :=
  match file with
  | some f => if f.type.startsWith ("image/") then handleImageFile f st else st
  | none => st

/-- Function `formatDiseaseName` of dashboard.js 320-327: replace `_` by a
space, put a space before each capital, expand `bell`, then trim. -/
def formatDiseaseName (disease : String) : String :=
  let s1 := String.mk (disease.toList.map (fun c => if c = '_' then ' ' else c))
  let s2 := String.mk (s1.toList.flatMap (fun c => if c.isUpper then [' ', c] else [c]))
  jsTrim (s2.replace ("bell") ("bell "))

/-- Function `updateDiagnosisStyle` of dashboard.js 329-357; the CSS class
and bar colour changes are not modelled. -/
def updateDiagnosisStyle (severity : String) (st : DashState) : DashState :=
  if severity = "healthy" then
    { st with diagnosisIcon := "✅", diagnosisTitle := "Plante Saine" }
  else if severity = "warning" then
    { st with diagnosisIcon := "⚠️", diagnosisTitle := "Attention Requise" }
  else if severity = "danger" then
    { st with diagnosisIcon := "🚨", diagnosisTitle := "Maladie Détectée" }
  else
    { st with diagnosisIcon := "❓", diagnosisTitle := "Diagnostic" }

/-- Function `displayResults` of dashboard.js 294-318 together with
`displayRecommendations` (359-381). -/
def displayResults (result : AnalyzeResult) (st : DashState) : DashState :=
  let confidence := result.confidence.getD 0
  let disease := jsStrOr result.disease ("Inconnu")
  let description := jsStrOr result.description ("Aucune description disponible.")
  let recs := result.recommendations.getD []
  let st1 := { st with
      displayedConfidence := toString confidence ++ "%",
      displayedDisease := formatDiseaseName disease,
      displayedDescription := description }
  let st2 := updateDiagnosisStyle (jsStrOr result.severity ("healthy")) st1
  { st2 with
      recommendations :=
        if recs.isEmpty then ["Continuez les bonnes pratiques de culture"] else recs }

/-- Result of the awaited `/analyze` fetch: parsed JSON of an ok response,
or the message of the thrown error (non-ok status or network failure). -/
inductive AnalyzeOutcome where
  | ok (result : AnalyzeResult)
  | err (message : String)
  deriving DecidableEq

/-- Function `analyzeImage` of dashboard.js 254-292: early return when no image is
selected, otherwise POST the multipart form whose `image` field is
`currentImageFile`, display the result or the error, and restore the
button in the finally-branch. -/
def analyzeImage (outcome : AnalyzeOutcome) (st : DashState) : DashState × List NetRequest :=
  match st.currentImageFile with
  | none => (showError ("Veuillez d\x27abord sélectionner une image.") st, [])
  | some file =>
      let st1 := { st with analyzeBtnDisabled := true,
                           analyzeBtnLabel := "⏳Analyse en cours..." }
      let st2 :=
        match outcome with
        | .ok result => displayResults result st1
        | .err message => showError ("Erreur lors de l\x27analyse: " ++ message) st1
      ({ st2 with analyzeBtnDisabled := false, analyzeBtnLabel := "🔍Analyser l\x27image" },
       [NetRequest.analyze file.name file.size])

/-- Function `saveReport` of dashboard.js 404-430: alert and return when
no image is selected; otherwise unshift the new report onto the stored
history and keep only the first 10 entries.  The wall-clock readings (the
locale date string and the millisecond timestamp) are parameters. -/
def saveReport (dateStr : String) (timestamp : Nat) (st : DashState) : DashState :=
  match st.currentImageFile with
  | none => st
  | some file =>
      let report : Report :=
        { date := dateStr,
          disease := st.displayedDisease,
          confidence := st.displayedConfidence,
          image := file.name,
          timestamp := timestamp }
      { st with history := (report :: st.history).take 10 }

/-- Result of the `GET /health` fetch (dashboard.js 160-177): an ok
response with its optional `model_loaded` field, a non-ok status, or a
network failure. -/
inductive HealthOutcome where
  | ok (modelLoaded : Option Bool)
  | httpErr (status : Nat)
  | netErr
  deriving DecidableEq

/-- The health check ends in the catch branch when the response is not ok,
the fetch rejects, or `!data.model_loaded` (absent or false). -/
def healthCheckFails : HealthOutcome → Bool
  | .ok modelLoaded => !(modelLoaded.getD false)
  | .httpErr _ => true
  | .netErr => true

/-- Function `checkBackendHealth` of dashboard.js 160-177: on failure disable the
analyze button, relabel it and show the error; on success leave the state
untouched. -/
def checkBackendHealth (outcome : HealthOutcome) (st : DashState) : DashState :=
  if healthCheckFails outcome then
    showError
      ("Le backend de détection est indisponible. Vérifiez qu\x27il est lancé sur le port 8003.")
      { st with analyzeBtnDisabled := true, analyzeBtnLabel := "❌ API indisponible" }
  else st

end Dashboard

namespace AuthPage

/-- One `input[required]` of a login/register form: its `name` attribute
and current value. -/
structure FormField where
  name : String
  value : String
  deriving DecidableEq

/-- An auth form: its required text inputs, whether a required
`input[name="terms"]` checkbox exists, and whether it is checked. -/
structure AuthForm where
  fields : List FormField
  termsRequired : Bool
  termsChecked : Bool
  deriving DecidableEq

/-- JS `String.prototype.split` on a one-character separator. -/
def splitAtChar (c : Char) : List Char → List (List Char)
  | [] => [[]]
  | x :: xs =>
      let rest := splitAtChar c xs
      if x = c then [] :: rest
      else
        match rest with
        | [] => [[x]]
        | r :: rs => (x :: r) :: rs

/-- The email pattern `/^[^@\s]+@[^@\s]+\.[^@\s]+$/` (app.js 312): exactly
one `@`; a non-empty whitespace-free local part; a whitespace-free domain
containing a dot that is neither its first nor its last character (the
char class `[^@\s]` itself admits dots, so backtracking reduces to an
interior dot in the part after the `@`). -/
def emailRegexTest (s : String) : Bool :=
  match splitAtChar ('@') s.toList with
  | [p, q] =>
      decide (0 < p.length) && decide (0 < q.length)
      && p.all (fun c => !c.isWhitespace)
      && q.all (fun c => !c.isWhitespace)
      && ((q.drop 1).dropLast.contains ('.'))
  | _ => false

/-- Function `validateField` of app.js 304-331, returning the inline error
message shown by `showError`, or `none` when the field is valid. -/
def fieldError (name value : String) : Option String :=
  let v := jsTrim value
  if v = "" then some ("Ce champ est requis")
  else if name == "email" && !emailRegexTest v then
    some ("Adresse email invalide")
  else if name == "password" && decide (v.length < 6) then
    some ("Le mot de passe doit contenir au moins 6 caractères")
  else if name == "username" && decide (v.length < 3) then
    some ("Le nom d\x27utilisateur doit contenir au moins 3 caractères")
  else none

/-- The boolean result of `validateField` (app.js 330). -/
def validateField (name value : String) : Bool := (fieldError name value).isNone

/-- Function `validateForm` of app.js 284-302: every required input must pass
`validateField`, and a required terms checkbox must be checked. -/
def validateForm (form : AuthForm) : Bool :=
  form.fields.all (fun f => validateField f.name f.value)
  && (!form.termsRequired || form.termsChecked)

/-- The inline error messages produced while validating the form. -/
def formErrors (form : AuthForm) : List String :=
  (form.fields.filterMap (fun f => fieldError f.name f.value))
  ++ (if form.termsRequired && !form.termsChecked then
        ["Vous devez accepter les conditions pour continuer"]
      else [])

/-- What a form submission did: whether it was blocked, the
`hydrocare_auth` and `hydrocare_user` localStorage writes, the navigation
target, and the network requests issued (always none: auth is simulated). -/
structure SubmitResult where
  blocked : Bool
  authStored : Option String
  userStored : Option String
  redirect : Option String
  requests : List NetRequest
  deriving DecidableEq

/-- A `FormData` lookup: the value of the first field with the given name. -/
def formDataGet (form : AuthForm) (key : String) : Option String :=
  (form.fields.find? (fun f => f.name == key)).map (fun f => f.value)

/-- The pseudo fallback of app.js 273-275: the part of the email before
the at-sign, guarded by JS truthiness of `data.email`. -/
def pseudoFromEmail (form : AuthForm) : Option String :=
  match formDataGet form ("email") with
  | some e =>
      if e = "" then none
      else some (String.mk ((splitAtChar ('@') e.toList).headD e.toList))
  | none => none

/-- Function `handleFormSubmit` of app.js 251-282: on validation failure focus the
first error and return; on success store the simulated auth flag, the
username (or email pseudo), and redirect to the dashboard. -/
def handleFormSubmit (form : AuthForm) : SubmitResult :=
  if validateForm form then
    { blocked := false,
      authStored := some ("1"),
      userStored :=
        match formDataGet form ("username") with
        | some u => if u = "" then pseudoFromEmail form else some u
        | none => pseudoFromEmail form,
      redirect := some ("dashboard.html"),
      requests := [] }
  else
    { blocked := true, authStored := none, userStored := none, redirect := none, requests := [] }

end AuthPage

namespace Parametres

/-- An `{min, max}` range of PLANT_DATABASE (parametres.js 5-55).  JS
numbers are modelled as rationals. -/
structure Plage where
  min : ℚ
  max : ℚ
  deriving DecidableEq

/-- One PLANT_DATABASE entry (parametres.js 5-55). -/
structure Plante where
  nom : String
  pH_optimal : Plage
  ec_optimal : Plage
  ppm_optimal : Plage
  temperature_optimal : Plage
  deriving DecidableEq

/-- The table `PLANT_DATABASE` of parametres.js 5-55 as a keyed lookup; JS property
access on a missing key yields `undefined`, here `none`. -/
def PLANT_DATABASE (key : String) : Option Plante :=
  if key = "basilic" then
    some { nom := "Basilic", pH_optimal := ⟨5.5, 6.5⟩, ec_optimal := ⟨1.0, 1.6⟩,
           ppm_optimal := ⟨500, 800⟩, temperature_optimal := ⟨20, 25⟩ }
  else if key = "laitue" then
    some { nom := "Laitue", pH_optimal := ⟨5.5, 6.5⟩, ec_optimal := ⟨0.8, 1.2⟩,
           ppm_optimal := ⟨400, 600⟩, temperature_optimal := ⟨16, 20⟩ }
  else if key = "tomate" then
    some { nom := "Tomate", pH_optimal := ⟨5.5, 6.5⟩, ec_optimal := ⟨2.0, 5.0⟩,
           ppm_optimal := ⟨1000, 2500⟩, temperature_optimal := ⟨18, 24⟩ }
  else if key = "fraisier" then
    some { nom := "Fraisier", pH_optimal := ⟨5.5, 6.5⟩, ec_optimal := ⟨1.8, 2.2⟩,
           ppm_optimal := ⟨900, 1100⟩, temperature_optimal := ⟨18, 22⟩ }
  else if key = "concombre" then
    some { nom := "Concombre", pH_optimal := ⟨5.5, 6.0⟩, ec_optimal := ⟨1.7, 2.5⟩,
           ppm_optimal := ⟨850, 1250⟩, temperature_optimal := ⟨20, 25⟩ }
  else if key = "poivron" then
    some { nom := "Poivron", pH_optimal := ⟨5.8, 6.3⟩, ec_optimal := ⟨2.0, 3.0⟩,
           ppm_optimal := ⟨1000, 1500⟩, temperature_optimal := ⟨20, 25⟩ }
  else if key = "epinard" then
    some { nom := "Épinard", pH_optimal := ⟨5.5, 6.6⟩, ec_optimal := ⟨1.8, 2.3⟩,
           ppm_optimal := ⟨900, 1150⟩, temperature_optimal := ⟨15, 20⟩ }
  else none

/-- The fields of a measurement that `analyserParametresPlante` reads
(parametres.js 145-155); the purely descriptive fields (`systemeNom`,
`tailleBac`, `nombrePlantes`, `notes`, dates) play no role in the analysis
and are omitted. -/
structure Mesure where
  planteType : String
  phMesure : ℚ
  oxygeneMesure : ℚ
  temperatureEau : ℚ
  deriving DecidableEq

/-- One alert pushed by `analyserParametresPlante` (parametres.js
174-249). -/
structure Alerte where
  type : String
  titre : String
  description : String
  parametre : String
  deriving DecidableEq

/-- The analysis result (parametres.js 259-264). -/
structure Analyse where
  alertes : List Alerte
  recommandations : List String
  statutGlobal : String
  plante : Plante
  deriving DecidableEq

/-- Display of a JS number inside the alert template strings; the exact
digits (`toFixed(1)`, float printing) are approximated by printing the
rational, which no claim inspects. -/
def ratStr (x : ℚ) : String :=
  if x.den = 1 then toString x.num else toString x.num ++ "/" ++ toString x.den

/-- The pH branch of `analyserParametresPlante` (parametres.js 172-196):
the pushed alert and recommendation. -/
def analysePH (plante : Plante) (ph : ℚ) : Alerte × List String :=
  if ph < plante.pH_optimal.min then
    ({ type := "warning", titre := "pH Trop Bas",
       description := "Le pH (" ++ ratStr ph ++ ") est en dessous de la plage optimale ("
         ++ ratStr plante.pH_optimal.min ++ "-" ++ ratStr plante.pH_optimal.max ++ ")",
       parametre := "pH" },
     ["Augmenter le pH en ajoutant une solution basique (environ "
        ++ ratStr (plante.pH_optimal.min - ph) ++ " point)"])
  else if ph > plante.pH_optimal.max then
    ({ type := "warning", titre := "pH Trop Élevé",
       description := "Le pH (" ++ ratStr ph ++ ") est au-dessus de la plage optimale ("
         ++ ratStr plante.pH_optimal.min ++ "-" ++ ratStr plante.pH_optimal.max ++ ")",
       parametre := "pH" },
     ["Diminuer le pH en ajoutant une solution acide (environ "
        ++ ratStr (ph - plante.pH_optimal.max) ++ " point)"])
  else
    ({ type := "success", titre := "pH Optimal",
       description := "Le pH (" ++ ratStr ph ++ ") est dans la plage optimale",
       parametre := "pH" }, [])

/-- The general dissolved-oxygen range `{min: 5.0, max: 8.0}`
(parametres.js 199). -/
def oxygeneOptimal : Plage := ⟨5.0, 8.0⟩

/-- The dissolved-oxygen branch of `analyserParametresPlante`
(parametres.js 198-223). -/
def analyseOxygene (ox : ℚ) : Alerte × List String :=
  if ox < oxygeneOptimal.min then
    ({ type := "critical", titre := "Oxygène Insuffisant",
       description := "L\x27oxygène dissous (" ++ ratStr ox
         ++ " mg/L) est trop bas pour une croissance optimale",
       parametre := "oxygene" },
     ["Augmenter l\x27oxygénation : vérifier les pompes à air, augmenter le débit ou ajouter des pierres à air"])
  else if ox > oxygeneOptimal.max then
    ({ type := "warning", titre := "Oxygène Élevé",
       description := "L\x27oxygène dissous (" ++ ratStr ox
         ++ " mg/L) est au-dessus des niveaux typiques",
       parametre := "oxygene" },
     ["Surveiller l\x27oxygénation : niveau élevé mais généralement non problématique"])
  else
    ({ type := "success", titre := "Oxygène Optimal",
       description := "L\x27oxygène dissous (" ++ ratStr ox
         ++ " mg/L) est dans la plage optimale",
       parametre := "oxygene" }, [])

/-- The water-temperature branch of `analyserParametresPlante`
(parametres.js 225-249). -/
def analyseTemperature (plante : Plante) (t : ℚ) : Alerte × List String :=
  if t < plante.temperature_optimal.min then
    ({ type := "warning", titre := "Température Trop Basse",
       description := "La température (" ++ ratStr t ++ "°C) est en dessous de l\x27optimal ("
         ++ ratStr plante.temperature_optimal.min ++ "-"
         ++ ratStr plante.temperature_optimal.max ++ "°C)",
       parametre := "temperature" },
     ["Augmenter la température de l\x27eau avec un chauffage d\x27aquarium"])
  else if t > plante.temperature_optimal.max then
    ({ type := "critical", titre := "Température Trop Élevée",
       description := "La température (" ++ ratStr t ++ "°C) est au-dessus de l\x27optimal ("
         ++ ratStr plante.temperature_optimal.min ++ "-"
         ++ ratStr plante.temperature_optimal.max ++ "°C)",
       parametre := "temperature" },
     ["Refroidir l\x27eau : ombrager le réservoir, utiliser un ventilateur ou un refroidisseur"])
  else
    ({ type := "success", titre := "Température Optimale",
       description := "La température (" ++ ratStr t
         ++ "°C) est dans la plage optimale",
       parametre := "temperature" }, [])

/-- Function `analyserParametresPlante` of parametres.js 167-265: the three
alerts are pushed in the order pH, oxygen, temperature; the global status
counts critical and warning alerts.  For a plant type missing from
PLANT_DATABASE the JS code throws on the property access, modelled as
`none`. -/
def analyserParametresPlante (mesure : Mesure) : Option Analyse :=
  (PLANT_DATABASE mesure.planteType).map (fun plante =>
    let aPH := analysePH plante mesure.phMesure
    let aOx := analyseOxygene mesure.oxygeneMesure
    let aT := analyseTemperature plante mesure.temperatureEau
    let alertes := [aPH.1, aOx.1, aT.1]
    let alertesCritiques := (alertes.filter (fun a => a.type == "critical")).length
    let alertesWarning := (alertes.filter (fun a => a.type == "warning")).length
    { alertes := alertes,
      recommandations := aPH.2 ++ aOx.2 ++ aT.2,
      statutGlobal :=
        if alertesCritiques > 0 then ("critique")
        else if alertesWarning > 0 then ("alerte")
        else ("optimal"),
      plante := plante })

end Parametres

/-! ## Theorems -/

namespace ChatPage

/-- Claim C1: for every question string that is empty or whitespace-only
after trimming, submitting it through the chat form or calling
`sendMessage` performs no network request (no fetch to `/api/chat`) and
leaves the transcript and session identifier unchanged — indeed the whole
client state is unchanged. -/
theorem empty_question_no_network (question : String) (outcome : FetchOutcome)
    (st : ChatState) :
    (jsTrim question = "" → sendMessage question outcome st = (st, []))
    ∧ (jsTrim st.inputValue = "" → chatFormSubmit outcome st = (st, [])) := by
  constructor
  · intro h
    simp [sendMessage, h]
  · intro h
    simp [chatFormSubmit, h]

/-- Witness for C1 at the whitespace-only input `"   "`. -/
theorem empty_question_no_network_witness :
    sendMessage ("   ") (.netErr ("x")) (initialChatState none) = (initialChatState none, [])
    ∧ chatFormSubmit (.netErr ("x"))
        { initialChatState none with inputValue := "   " } =
        ({ initialChatState none with inputValue := "   " }, []) := by
  exact ⟨(empty_question_no_network ("   ") (.netErr ("x")) (initialChatState none)).1
           (by decide),
         (empty_question_no_network ("   ") (.netErr ("x"))
           { initialChatState none with inputValue := "   " }).2 (by decide)⟩

/-- Claim C2: every execution of the session-reset handler — whether the
POST to `/api/reset-session` succeeds, fails, or is skipped because the
session identifier is empty — afterwards sets the in-memory session id to
`""`, removes the `hc_session_id` localStorage key, and empties the
visible transcript. -/
theorem reset_clears_client_state (serverOk : Bool) (st : ChatState) :
    (resetSessionClick serverOk st).1.sessionId = ""
    ∧ (resetSessionClick serverOk st).1.storeSession = none
    ∧ (resetSessionClick serverOk st).1.transcript = [] :=
  ⟨rfl, rfl, rfl⟩

/-- Claim C4: the chat client has at most one outstanding request.  While
`isWaitingForResponse` is set, `sendMessage` (hence the suggestion
buttons) and the form submit handler (hence the Enter key, which
dispatches the submit event) issue no fetch and leave transcript, session
id and the busy flag unchanged; when a request is issued the flag is set,
and it is cleared exactly when the outstanding request resolves, on both
the success and the failure path (the `finally` block). -/
theorem single_outstanding_chat_request (st st2 : ChatState) (question : String)
    (dq : Option String) (outcome : FetchOutcome)
    (hw : st.isWaitingForResponse = true) :
    sendMessage question outcome st = (st, [])
    ∧ (chatFormSubmit outcome st).2 = []
    ∧ (chatFormSubmit outcome st).1.transcript = st.transcript
    ∧ (chatFormSubmit outcome st).1.sessionId = st.sessionId
    ∧ (chatFormSubmit outcome st).1.isWaitingForResponse = true
    ∧ suggestionClick dq outcome st = (st, [])
    ∧ (st2.isWaitingForResponse = false → jsTrim question ≠ "" →
        (sendMessageStart question st2).1.isWaitingForResponse = true
        ∧ (sendMessageStart question st2).2 = [NetRequest.chat question st2.sessionId])
    ∧ (sendMessageFinish outcome st2).isWaitingForResponse = false := by
  have hsend : ∀ (q : String) (st' : ChatState), st'.isWaitingForResponse = true →
      sendMessage q outcome st' = (st', []) := by
    intro q st' h
    simp [sendMessage, h]
  have hform : (chatFormSubmit outcome st).2 = []
      ∧ (chatFormSubmit outcome st).1.transcript = st.transcript
      ∧ (chatFormSubmit outcome st).1.sessionId = st.sessionId
      ∧ (chatFormSubmit outcome st).1.isWaitingForResponse = true := by
    unfold chatFormSubmit
    by_cases h : jsTrim st.inputValue = ""
    · simp [h, hw]
    · simp [h, hsend (jsTrim st.inputValue) { st with inputValue := "" } hw]
      exact hw
  refine ⟨hsend question st hw, hform.1, hform.2.1, hform.2.2.1, hform.2.2.2, ?_, ?_, ?_⟩
  · cases dq with
    | none => rfl
    | some q =>
        by_cases h : q = ""
        · simp [suggestionClick, h]
        · simp [suggestionClick, h, hsend q st hw]
  · intro h1 h2
    constructor
    · simp [sendMessageStart, h1, h2]
    · simp [sendMessageStart, h1, h2]
  · cases outcome <;> rfl

/-- Helper: a full `sendMessage` run keeps session `s` and tags every
issued chat request with `s`, provided the response echoes `s`. -/
theorem sendMessage_session_invariant (s question : String) (outcome : FetchOutcome)
    (st : ChatState) (hs : st.sessionId = s) (hp : echoes s outcome = true) :
    (sendMessage question outcome st).1.sessionId = s
    ∧ ∀ r ∈ (sendMessage question outcome st).2, ∃ q0, r = NetRequest.chat q0 s := by
  unfold sendMessage
  by_cases hb : (decide (jsTrim question = "") || st.isWaitingForResponse) = true
  · simp [hb, hs]
  · rw [if_neg (by simpa using hb)]
    constructor
    · cases outcome with
      | ok data =>
          simp only [sendMessageFinish, sendMessageStart]
          rw [if_neg (by simpa using hb)]
          simp only [echoes] at hp
          cases hd : data.session_id with
          | none => simp [jsStrOr, hs, hd]
          | some t =>
              rw [hd] at hp
              simp only [Bool.or_eq_true, beq_iff_eq] at hp
              cases hp with
              | inl ht => simp [jsStrOr, hs, hd, ht]
              | inr ht =>
                  subst ht
                  by_cases hts : t = "" <;> simp [jsStrOr, hs, hd, hts]
      | httpErr status =>
          simp only [sendMessageFinish, sendMessageStart]
          rw [if_neg (by simpa using hb)]
          simpa using hs
      | netErr message =>
          simp only [sendMessageFinish, sendMessageStart]
          rw [if_neg (by simpa using hb)]
          simpa using hs
    · intro r hr
      simp only [sendMessageStart] at hr
      rw [if_neg (by simpa using hb)] at hr
      simp only [List.mem_singleton] at hr
      exact ⟨question, by rw [hr, hs]⟩

/-- Helper: any single chat-page event other than reset/logout whose
response echoes session `s` keeps the in-memory session at `s` and tags
every issued request with `s`. -/
theorem chatStep_session_invariant (s : String) (e : ChatEvent) (st : ChatState)
    (hs : st.sessionId = s) (hp : preservesSession s e = true) :
    (chatStep e st).1.sessionId = s
    ∧ ∀ r ∈ (chatStep e st).2, ∃ q0, r = NetRequest.chat q0 s := by
  cases e with
  | formSubmit outcome =>
      simp only [chatStep, chatFormSubmit]
      by_cases h : jsTrim st.inputValue = ""
      · simp [h, hs]
      · rw [if_neg h]
        exact sendMessage_session_invariant s (jsTrim st.inputValue) outcome
          { st with inputValue := "" } hs hp
  | suggestion dq outcome =>
      cases dq with
      | none => simp [chatStep, suggestionClick, hs]
      | some q =>
          by_cases h : q = ""
          · simp [chatStep, suggestionClick, h, hs]
          · show (suggestionClick (some q) outcome st).1.sessionId = s
              ∧ ∀ r ∈ (suggestionClick (some q) outcome st).2, ∃ q0, r = NetRequest.chat q0 s
            simp only [suggestionClick]
            rw [if_neg h]
            exact sendMessage_session_invariant s q outcome st hs hp
  | typeInput sNew =>
      simp only [chatStep]
      by_cases h : st.inputDisabled = true <;> simp [h, hs]
  | reset serverOk => simp [preservesSession] at hp
  | logout => simp [preservesSession] at hp

/-- Helper: running any trace of session-preserving events keeps the
session at `s` and tags every chat request issued along the way with `s`. -/
theorem runTrace_session_invariant (s : String) (events : List ChatEvent)
    (st : ChatState) (hs : st.sessionId = s)
    (hp : ∀ e ∈ events, preservesSession s e = true) :
    (runTrace events st).1.sessionId = s
    ∧ ∀ r ∈ (runTrace events st).2, ∃ q0, r = NetRequest.chat q0 s := by
  induction events generalizing st with
  | nil => simp [runTrace, hs]
  | cons e rest ih =>
      have h1 := chatStep_session_invariant s e st hs (hp e (by simp))
      have h2 := ih (chatStep e st).1 h1.1 (fun e' he' => hp e' (by simp [he']))
      simp only [runTrace]
      refine ⟨h2.1, ?_⟩
      intro r hr
      rw [List.mem_append] at hr
      cases hr with
      | inl h => exact h1.2 r h
      | inr h => exact h2.2 r h

/-- Claim C6: a non-empty question sent from an empty session, answered by
a success response carrying a non-empty `session_id`, stores that id in
memory and in localStorage under `hc_session_id`; and along any subsequent
sequence of chat-page events that contains no reset or logout and whose
responses echo the id (the server contract), every chat request issued
carries exactly that id. -/
theorem session_id_stored_and_replayed (st : ChatState) (question s : String)
    (data : ChatResponse) (events : List ChatEvent)
    (h0 : st.sessionId = "") (h1 : st.isWaitingForResponse = false)
    (h2 : jsTrim question ≠ "") (h3 : data.session_id = some s) (h4 : s ≠ "")
    (h5 : ∀ e ∈ events, preservesSession s e = true) :
    (sendMessage question (.ok data) st).1.sessionId = s
    ∧ (sendMessage question (.ok data) st).1.storeSession = some s
    ∧ ∀ r ∈ (runTrace events (sendMessage question (.ok data) st).1).2,
        ∃ q0, r = NetRequest.chat q0 s := by
  have hstore : (sendMessage question (.ok data) st).1.sessionId = s
      ∧ (sendMessage question (.ok data) st).1.storeSession = some s := by
    unfold sendMessage
    rw [if_neg (by simp [h1, h2])]
    simp only [sendMessageFinish, sendMessageStart]
    rw [if_neg (by simp [h1, h2])]
    simp [jsStrOr, h3, h4]
  have htrace := runTrace_session_invariant s events
    (sendMessage question (.ok data) st).1 hstore.1 h5
  exact ⟨hstore.1, hstore.2, htrace.2⟩

/-- Witness for C6 on a concrete first exchange followed by a retype, a
failed follow-up and an echoed follow-up. -/
theorem session_id_stored_and_replayed_witness :
    (sendMessage ("Quel pH pour la tomate ?")
        (.ok { answer := some ("Un pH de 5.5 a 6.5."), session_id := some ("sess-1") })
        (initialChatState none)).1.sessionId = "sess-1"
    ∧ (sendMessage ("Quel pH pour la tomate ?")
        (.ok { answer := some ("Un pH de 5.5 a 6.5."), session_id := some ("sess-1") })
        (initialChatState none)).1.storeSession = some ("sess-1")
    ∧ ∀ r ∈ (runTrace
          [ChatEvent.typeInput ("et la laitue ?"),
           ChatEvent.formSubmit (.httpErr 500),
           ChatEvent.suggestion (some ("Comment regler l\x27EC ?"))
             (.ok { answer := some ("Voici."), session_id := some ("sess-1") })]
          (sendMessage ("Quel pH pour la tomate ?")
            (.ok { answer := some ("Un pH de 5.5 a 6.5."), session_id := some ("sess-1") })
            (initialChatState none)).1).2,
        ∃ q0, r = NetRequest.chat q0 ("sess-1") :=
  session_id_stored_and_replayed (initialChatState none) ("Quel pH pour la tomate ?")
    ("sess-1")
    { answer := some ("Un pH de 5.5 a 6.5."), session_id := some ("sess-1") }
    [ChatEvent.typeInput ("et la laitue ?"),
     ChatEvent.formSubmit (.httpErr 500),
     ChatEvent.suggestion (some ("Comment regler l\x27EC ?"))
       (.ok { answer := some ("Voici."), session_id := some ("sess-1") })]
    (by decide) (by decide) (by decide) rfl (by decide) (by decide)

/-- Witness for C4: a state that is mid-request blocks a further
submission, and both resolution paths clear the flag. -/
theorem single_outstanding_chat_request_witness :
    sendMessage ("encore") (.httpErr 500)
        { initialChatState none with isWaitingForResponse := true } =
      ({ initialChatState none with isWaitingForResponse := true }, [])
    ∧ (sendMessageFinish (.httpErr 500)
        { initialChatState none with isWaitingForResponse := true }).isWaitingForResponse
        = false := by
  have h := single_outstanding_chat_request
    { initialChatState none with isWaitingForResponse := true }
    { initialChatState none with isWaitingForResponse := true }
    ("encore") none (.httpErr 500) (by decide)
  exact ⟨h.1, h.2.2.2.2.2.2.2⟩

/-- Claim C7: `appendMessage` renders the evaluation-metrics block iff at
least one of `faithfulness`/`completeness` is defined; each undefined
score displays as the neutral placeholder `N/A`; when both are undefined
no metrics block is rendered.  (Total functions: no crash to model.) -/
theorem missing_scores_render_na (role text : String) (metadata : Metadata) :
    ((appendMessage role text metadata).metrics.isSome
        ↔ (metadata.faithfulness.isSome ∨ metadata.completeness.isSome))
    ∧ (metadata.faithfulness = none ∧ metadata.completeness = none →
        (appendMessage role text metadata).metrics = none)
    ∧ (∀ fc, (appendMessage role text metadata).metrics = some fc →
        (metadata.faithfulness = none → fc.1 = "N/A")
        ∧ (metadata.completeness = none → fc.2 = "N/A")) := by
  cases hf : metadata.faithfulness with
  | none =>
      cases hc : metadata.completeness with
      | none => simp [appendMessage, hf, hc]
      | some c =>
          refine ⟨by simp [appendMessage, hf, hc], by simp [hc], ?_⟩
          intro fc hfc
          simp only [appendMessage, hf, hc] at hfc
          simp only [Option.isSome_none, Option.isSome_some, Bool.false_or,
            if_true, Option.some.injEq] at hfc
          refine ⟨fun _ => ?_, fun h => by simp [hc] at h⟩
          rw [← hfc]
          rfl
  | some f =>
      refine ⟨by simp [appendMessage, hf], by simp [hf], ?_⟩
      intro fc hfc
      refine ⟨fun h => by simp [hf] at h, fun h => ?_⟩
      simp only [appendMessage, hf, h] at hfc
      simp only [Option.isSome_some, Bool.true_or, if_true, Option.some.injEq] at hfc
      rw [← hfc]
      rfl

/-- Witness for C7: no metrics block when both scores are absent; a block
with `N/A` in the missing position when only completeness is present. -/
theorem missing_scores_render_na_witness :
    (appendMessage ("bot") ("ok") ({} : Metadata)).metrics = none
    ∧ (appendMessage ("bot") ("ok") ({ completeness := some 4 } : Metadata)).metrics.isSome := by
  constructor
  · exact (missing_scores_render_na ("bot") ("ok") {}).2.1 ⟨rfl, rfl⟩
  · exact (missing_scores_render_na ("bot") ("ok")
      { completeness := some 4 }).1.2 (Or.inr (by decide))

end ChatPage

namespace Dashboard

/-- Claim C3: a file over 10MB is rejected client-side by
`handleImageFile`: the size error is shown, `currentImageFile` is not set,
and — since `analyzeImage` only ever posts `currentImageFile` — no
`/analyze` request can carry that file; in particular from a state with no
selected image the oversized upload enables no analyze request at all. -/
theorem oversized_image_rejected (file : ImageFile) (st st0 : DashState)
    (outcome : AnalyzeOutcome) (h : 10 * 1024 * 1024 < file.size) :
    (handleImageFile file st).currentImageFile = st.currentImageFile
    ∧ (handleImageFile file st).displayedDisease = "Erreur"
    ∧ (handleImageFile file st).displayedDescription
        = "L\x27image est trop volumineuse. Maximum 10MB."
    ∧ (∀ r ∈ (analyzeImage outcome st0).2,
        ∃ f0, st0.currentImageFile = some f0 ∧ r = NetRequest.analyze f0.name f0.size)
    ∧ (st.currentImageFile = none → (analyzeImage outcome (handleImageFile file st)).2 = []) := by
  have hreq : ∀ st1 : DashState, ∀ r ∈ (analyzeImage outcome st1).2,
      ∃ f0, st1.currentImageFile = some f0 ∧ r = NetRequest.analyze f0.name f0.size := by
    intro st1 r hr
    cases hc : st1.currentImageFile with
    | none => simp [analyzeImage, hc] at hr
    | some f0 =>
        refine ⟨f0, rfl, ?_⟩
        cases outcome <;> simp [analyzeImage, hc] at hr <;> exact hr
  refine ⟨by simp [handleImageFile, h, showError], by simp [handleImageFile, h, showError],
          by simp [handleImageFile, h, showError], hreq st0, ?_⟩
  intro hn
  have hcur : (handleImageFile file st).currentImageFile = none := by
    simp [handleImageFile, h, showError, hn]
  simp [analyzeImage, hcur]

/-- Witness for C3 at an 11MB file. -/
theorem oversized_image_rejected_witness :
    (handleImageFile { name := "big.png", size := 11534336, type := "image/png" }
        { currentImageFile := none, analyzeBtnDisabled := true, analyzeBtnLabel := "",
          previewShown := false, displayedDisease := "", displayedDescription := "",
          displayedConfidence := "", diagnosisIcon := "", diagnosisTitle := "",
          recommendations := [], history := [] }).currentImageFile = none
    ∧ (analyzeImage (.err ("x"))
        (handleImageFile { name := "big.png", size := 11534336, type := "image/png" }
          { currentImageFile := none, analyzeBtnDisabled := true, analyzeBtnLabel := "",
            previewShown := false, displayedDisease := "", displayedDescription := "",
            displayedConfidence := "", diagnosisIcon := "", diagnosisTitle := "",
            recommendations := [], history := [] })).2 = [] := by
  have h := oversized_image_rejected
    { name := "big.png", size := 11534336, type := "image/png" }
    { currentImageFile := none, analyzeBtnDisabled := true, analyzeBtnLabel := "",
      previewShown := false, displayedDisease := "", displayedDescription := "",
      displayedConfidence := "", diagnosisIcon := "", diagnosisTitle := "",
      recommendations := [], history := [] }
    { currentImageFile := none, analyzeBtnDisabled := true, analyzeBtnLabel := "",
      previewShown := false, displayedDisease := "", displayedDescription := "",
      displayedConfidence := "", diagnosisIcon := "", diagnosisTitle := "",
      recommendations := [], history := [] }
    (.err ("x")) (by decide)
  exact ⟨by rw [h.1], h.2.2.2.2 rfl⟩

/-- Claim C5: after a `saveReport` call with an image selected, the stored
`hc_analysis_history` is the new report pushed in front, truncated to 10
entries: it has at most 10 entries, the newest first, and when the history
already held 10 reports the oldest one is dropped; without a selected
image the handler returns before writing. -/
theorem saveReport_history_capped (dateStr : String) (timestamp : Nat) (st : DashState) :
    (∀ file, st.currentImageFile = some file →
      (saveReport dateStr timestamp st).history =
        ({ date := dateStr, disease := st.displayedDisease,
           confidence := st.displayedConfidence, image := file.name,
           timestamp := timestamp } :: st.history).take 10
      ∧ (saveReport dateStr timestamp st).history.length ≤ 10
      ∧ (saveReport dateStr timestamp st).history.head? =
          some { date := dateStr, disease := st.displayedDisease,
                 confidence := st.displayedConfidence, image := file.name,
                 timestamp := timestamp }
      ∧ (st.history.length = 10 →
          (saveReport dateStr timestamp st).history =
            { date := dateStr, disease := st.displayedDisease,
              confidence := st.displayedConfidence, image := file.name,
              timestamp := timestamp } :: st.history.dropLast))
    ∧ (st.currentImageFile = none → (saveReport dateStr timestamp st).history = st.history) := by
  constructor
  · intro file hf
    refine ⟨by simp [saveReport, hf], ?_, ?_, ?_⟩
    · simp only [saveReport, hf]
      simp [List.length_take_le 10]
    · simp [saveReport, hf]
    · intro h10
      simp only [saveReport, hf, List.take_succ_cons, List.cons.injEq, true_and]
      rw [List.dropLast_eq_take, h10]
  · intro hn
    simp [saveReport, hn]

/-- Witness for C5: saving an eleventh report onto a full history of 10
keeps 10 entries, newest first, and drops the oldest. -/
theorem saveReport_history_capped_witness :
    (saveReport ("11/10/2026") 11
        { currentImageFile := some { name := "leaf.png", size := 5, type := "image/png" },
          analyzeBtnDisabled := false, analyzeBtnLabel := "", previewShown := true,
          displayedDisease := "Mildiou", displayedDescription := "",
          displayedConfidence := "90%", diagnosisIcon := "", diagnosisTitle := "",
          recommendations := [],
          history := (List.range 10).map (fun i =>
            { date := "", disease := "", confidence := "", image := "", timestamp := i }) }).history
      = { date := "11/10/2026", disease := "Mildiou", confidence := "90%",
          image := "leaf.png", timestamp := 11 }
        :: ((List.range 10).map (fun i =>
            ({ date := "", disease := "", confidence := "", image := "",
               timestamp := i } : Report))).dropLast := by
  exact ((saveReport_history_capped ("11/10/2026") 11 _).1
    { name := "leaf.png", size := 5, type := "image/png" } rfl).2.2.2 (by simp)

/-- Counterexample to claim C9 as stated: after a failed health check the
analyze button is disabled, but it does NOT remain disabled — selecting a
valid image re-enables it in `reader.onload` (dashboard.js 249), and a
click then issues an `/analyze` request while the backend is still
unavailable. -/
theorem health_gate_counterexample :
    (checkBackendHealth .netErr
      { currentImageFile := none, analyzeBtnDisabled := true, analyzeBtnLabel := "",
        previewShown := false, displayedDisease := "", displayedDescription := "",
        displayedConfidence := "", diagnosisIcon := "", diagnosisTitle := "",
        recommendations := [], history := [] }).analyzeBtnDisabled = true
    ∧ (handleImageFile { name := "leaf.png", size := 1024, type := "image/png" }
        (checkBackendHealth .netErr
          { currentImageFile := none, analyzeBtnDisabled := true, analyzeBtnLabel := "",
            previewShown := false, displayedDisease := "", displayedDescription := "",
            displayedConfidence := "", diagnosisIcon := "", diagnosisTitle := "",
            recommendations := [], history := [] })).analyzeBtnDisabled = false
    ∧ (analyzeImage (.err ("Failed to fetch"))
        (handleImageFile { name := "leaf.png", size := 1024, type := "image/png" }
          (checkBackendHealth .netErr
            { currentImageFile := none, analyzeBtnDisabled := true, analyzeBtnLabel := "",
              previewShown := false, displayedDisease := "", displayedDescription := "",
              displayedConfidence := "", diagnosisIcon := "", diagnosisTitle := "",
              recommendations := [], history := [] }))).2
        = [NetRequest.analyze ("leaf.png") 1024] := by
  refine ⟨rfl, ?_, ?_⟩ <;>
    simp [checkBackendHealth, healthCheckFails, showError, handleImageFile, analyzeImage]

/-- Claim C9 amended: whenever the `GET /health` request fails, returns a
non-ok status, or reports `model_loaded` false, the handler disables the
analyze button, relabels it `API indisponible` and shows the
backend-unavailable error; the disabling is however not permanent — a
subsequent valid image selection (≤ 10MB) re-enables the button regardless
of backend health. -/
theorem health_failure_disables_analyze (outcome : HealthOutcome) (st : DashState)
    (file : ImageFile) (h : healthCheckFails outcome = true) :
    (checkBackendHealth outcome st).analyzeBtnDisabled = true
    ∧ (checkBackendHealth outcome st).analyzeBtnLabel = "❌ API indisponible"
    ∧ (checkBackendHealth outcome st).displayedDescription
        = "Le backend de détection est indisponible. Vérifiez qu\x27il est lancé sur le port 8003."
    ∧ (file.size ≤ 10 * 1024 * 1024 →
        (handleImageFile file (checkBackendHealth outcome st)).analyzeBtnDisabled = false) := by
  refine ⟨by simp [checkBackendHealth, h, showError],
          by simp [checkBackendHealth, h, showError],
          by simp [checkBackendHealth, h, showError], ?_⟩
  intro hsize
  simp [handleImageFile, Nat.not_lt.mpr hsize]

/-- Witness for C9 (amended) at a health response with `model_loaded`
false and a 1KB image. -/
theorem health_failure_disables_analyze_witness :
    (checkBackendHealth (.ok (some false))
      { currentImageFile := none, analyzeBtnDisabled := false, analyzeBtnLabel := "",
        previewShown := false, displayedDisease := "", displayedDescription := "",
        displayedConfidence := "", diagnosisIcon := "", diagnosisTitle := "",
        recommendations := [], history := [] }).analyzeBtnDisabled = true
    ∧ (handleImageFile { name := "a.png", size := 1024, type := "image/png" }
        (checkBackendHealth (.ok (some false))
          { currentImageFile := none, analyzeBtnDisabled := false, analyzeBtnLabel := "",
            previewShown := false, displayedDisease := "", displayedDescription := "",
            displayedConfidence := "", diagnosisIcon := "", diagnosisTitle := "",
            recommendations := [], history := [] })).analyzeBtnDisabled = false := by
  have h := health_failure_disables_analyze (.ok (some false))
    { currentImageFile := none, analyzeBtnDisabled := false, analyzeBtnLabel := "",
      previewShown := false, displayedDisease := "", displayedDescription := "",
      displayedConfidence := "", diagnosisIcon := "", diagnosisTitle := "",
      recommendations := [], history := [] }
    { name := "a.png", size := 1024, type := "image/png" } (by decide)
  exact ⟨h.1, h.2.2.2 (by decide)⟩

end Dashboard

namespace AuthPage

/-- Helper: `validateField` accepts a field iff its trimmed value is
non-empty and the name-specific rule (email pattern, password ≥ 6,
username ≥ 3) holds. -/
theorem validateField_iff (name value : String) :
    validateField name value = true ↔
      (jsTrim value ≠ ""
       ∧ (name = "email" → emailRegexTest (jsTrim value) = true)
       ∧ (name = "password" → 6 ≤ (jsTrim value).length)
       ∧ (name = "username" → 3 ≤ (jsTrim value).length)) := by
  by_cases hv : jsTrim value = ""
  · simp [validateField, fieldError, hv]
  · by_cases he : name = "email"
    · by_cases ht : emailRegexTest (jsTrim value) = true
      · simp [validateField, fieldError, hv, he, ht]
      · rw [Bool.not_eq_true] at ht
        simp [validateField, fieldError, hv, he, ht]
    · by_cases hp : name = "password"
      · by_cases hl : (jsTrim value).length < 6
        · simp [validateField, fieldError, hv, he, hp, hl]
        · simp [validateField, fieldError, hv, he, hp, hl]
          omega
      · by_cases hu : name = "username"
        · by_cases hl : (jsTrim value).length < 3
          · simp [validateField, fieldError, hv, he, hp, hu, hl]
          · simp [validateField, fieldError, hv, he, hp, hu, hl]
            omega
        · simp [validateField, fieldError, hv, he, hp, hu]

/-- Helper: `validateForm` accepts iff every required input passes
`validateField` and a required terms checkbox is checked. -/
theorem validateForm_iff (form : AuthForm) :
    validateForm form = true ↔
      ((∀ f ∈ form.fields, validateField f.name f.value = true)
       ∧ (form.termsRequired = true → form.termsChecked = true)) := by
  unfold validateForm
  rw [Bool.and_eq_true, List.all_eq_true]
  constructor
  · rintro ⟨h1, h2⟩
    refine ⟨h1, fun hr => ?_⟩
    cases hc : form.termsChecked
    · rw [hr, hc] at h2
      simp at h2
    · rfl
  · rintro ⟨h1, h2⟩
    refine ⟨h1, ?_⟩
    cases hr : form.termsRequired
    · simp
    · simp [h2 hr]

/-- Helper: a rejected form always produced at least one inline message. -/
theorem invalid_form_has_error (form : AuthForm) (h : validateForm form = false) :
    formErrors form ≠ [] := by
  by_cases hall : form.fields.all (fun f => validateField f.name f.value) = true
  · have hterms : form.termsRequired = true ∧ form.termsChecked = false := by
      unfold validateForm at h
      rw [Bool.and_eq_false_iff] at h
      cases h with
      | inl h => rw [hall] at h; exact absurd h (by simp)
      | inr h =>
          cases hr : form.termsRequired <;> cases hc : form.termsChecked <;>
            rw [hr, hc] at h <;> simp_all
    apply (List.length_pos).1
    simp only [formErrors, hterms.1, hterms.2, Bool.not_false, Bool.and_self, if_true,
      List.length_append, List.length_singleton]
    omega
  · rw [Bool.not_eq_true, List.all_eq_false] at hall
    obtain ⟨f, hf, hval⟩ := hall
    rw [Bool.not_eq_true] at hval
    have : ∃ m, fieldError f.name f.value = some m := by
      unfold validateField at hval
      cases hm : fieldError f.name f.value with
      | none => rw [hm] at hval; simp at hval
      | some m => exact ⟨m, rfl⟩
    obtain ⟨m, hm⟩ := this
    have hmem : m ∈ formErrors form := by
      unfold formErrors
      rw [List.mem_append]
      exact Or.inl (List.mem_filterMap.2 ⟨f, hf, hm⟩)
    exact List.ne_nil_of_mem hmem

/-- Claim C8: the simulated authentication (storing `hydrocare_auth` and
redirecting to the dashboard) happens iff `validateForm` passes, which
holds iff every required field is non-empty after trimming, the email
matches the source regex, the password has at least 6 characters, the
username at least 3, and a required terms checkbox is checked; on failure
the submission is blocked with at least one inline message, and in no case
is any network request issued. -/
theorem auth_iff_validation (form : AuthForm) :
    (handleFormSubmit form).requests = []
    ∧ (((handleFormSubmit form).blocked = false
        ∧ (handleFormSubmit form).authStored = some ("1")
        ∧ (handleFormSubmit form).redirect = some ("dashboard.html"))
        ↔ validateForm form = true)
    ∧ (validateForm form = true ↔
        ((∀ f ∈ form.fields,
            jsTrim f.value ≠ ""
            ∧ (f.name = "email" → emailRegexTest (jsTrim f.value) = true)
            ∧ (f.name = "password" → 6 ≤ (jsTrim f.value).length)
            ∧ (f.name = "username" → 3 ≤ (jsTrim f.value).length))
          ∧ (form.termsRequired = true → form.termsChecked = true)))
    ∧ (validateForm form = false →
        (handleFormSubmit form).blocked = true ∧ formErrors form ≠ []) := by
  refine ⟨?_, ?_, ?_, ?_⟩
  · unfold handleFormSubmit
    split <;> rfl
  · by_cases hv : validateForm form = true
    · simp [handleFormSubmit, hv]
    · rw [Bool.not_eq_true] at hv
      simp [handleFormSubmit, hv]
  · rw [validateForm_iff]
    constructor
    · rintro ⟨h1, h2⟩
      exact ⟨fun f hf => (validateField_iff f.name f.value).1 (h1 f hf), h2⟩
    · rintro ⟨h1, h2⟩
      exact ⟨fun f hf => (validateField_iff f.name f.value).2 (h1 f hf), h2⟩
  · intro h
    refine ⟨by simp [handleFormSubmit, h], invalid_form_has_error form h⟩

/-- Witness for C8: a well-formed registration passes and is authenticated;
a malformed email is blocked with an inline message and no request. -/
theorem auth_iff_validation_witness :
    (handleFormSubmit
        { fields := [{ name := "username", value := "alice" },
                     { name := "email", value := "alice@example.com" },
                     { name := "password", value := "secret123" }],
          termsRequired := true, termsChecked := true }).authStored = some ("1")
    ∧ (handleFormSubmit
        { fields := [{ name := "email", value := "not-an-email" },
                     { name := "password", value := "secret123" }],
          termsRequired := false, termsChecked := false }).blocked = true
    ∧ formErrors
        { fields := [{ name := "email", value := "not-an-email" },
                     { name := "password", value := "secret123" }],
          termsRequired := false, termsChecked := false } ≠ []
    ∧ (handleFormSubmit
        { fields := [{ name := "email", value := "not-an-email" },
                     { name := "password", value := "secret123" }],
          termsRequired := false, termsChecked := false }).requests = [] := by
  have hvalid := (auth_iff_validation
    { fields := [{ name := "username", value := "alice" },
                 { name := "email", value := "alice@example.com" },
                 { name := "password", value := "secret123" }],
      termsRequired := true, termsChecked := true }).2.1.2 (by decide)
  have hbad := (auth_iff_validation
    { fields := [{ name := "email", value := "not-an-email" },
                 { name := "password", value := "secret123" }],
      termsRequired := false, termsChecked := false }).2.2.2 (by decide)
  have hreq := (auth_iff_validation
    { fields := [{ name := "email", value := "not-an-email" },
                 { name := "password", value := "secret123" }],
      termsRequired := false, termsChecked := false }).1
  exact ⟨hvalid.2.1, hbad.1, hbad.2, hreq⟩

end AuthPage

namespace Parametres

/-- Helper: the pH alert is `success` iff the measurement lies in the
optimal pH range of the plant; its parameter tag is `pH`. -/
theorem analysePH_type (p : Plante) (ph : ℚ) :
    ((analysePH p ph).1.type = "success" ↔
      (p.pH_optimal.min ≤ ph ∧ ph ≤ p.pH_optimal.max))
    ∧ (analysePH p ph).1.parametre = "pH" := by
  unfold analysePH
  split_ifs with h1 h2
  · refine ⟨⟨fun hcon =>
      absurd (show ("warning" : String) = "success" from hcon) (by decide), ?_⟩, rfl⟩
    rintro ⟨hle, _⟩
    exact absurd h1 (not_lt.2 hle)
  · refine ⟨⟨fun hcon =>
      absurd (show ("warning" : String) = "success" from hcon) (by decide), ?_⟩, rfl⟩
    rintro ⟨_, hge⟩
    exact absurd h2 (not_lt.2 hge)
  · rw [not_lt] at h1 h2
    exact ⟨⟨fun _ => ⟨h1, h2⟩, fun _ => rfl⟩, rfl⟩

/-- Helper: the dissolved-oxygen alert is `success` iff the measurement
lies in the fixed range `[5.0, 8.0]`; its parameter tag is `oxygene`. -/
theorem analyseOxygene_type (ox : ℚ) :
    ((analyseOxygene ox).1.type = "success" ↔ ((5 : ℚ) ≤ ox ∧ ox ≤ 8))
    ∧ (analyseOxygene ox).1.parametre = "oxygene" := by
  have hmin : oxygeneOptimal.min = 5 := by norm_num [oxygeneOptimal]
  have hmax : oxygeneOptimal.max = 8 := by norm_num [oxygeneOptimal]
  unfold analyseOxygene
  rw [hmin, hmax]
  split_ifs with h1 h2
  · refine ⟨⟨fun hcon =>
      absurd (show ("critical" : String) = "success" from hcon) (by decide), ?_⟩, rfl⟩
    rintro ⟨hle, _⟩
    exact absurd h1 (not_lt.2 hle)
  · refine ⟨⟨fun hcon =>
      absurd (show ("warning" : String) = "success" from hcon) (by decide), ?_⟩, rfl⟩
    rintro ⟨_, hge⟩
    exact absurd h2 (not_lt.2 hge)
  · rw [not_lt] at h1 h2
    exact ⟨⟨fun _ => ⟨h1, h2⟩, fun _ => rfl⟩, rfl⟩

/-- Helper: the water-temperature alert is `success` iff the measurement
lies in the optimal temperature range of the plant; its parameter tag is
`temperature`. -/
theorem analyseTemperature_type (p : Plante) (t : ℚ) :
    ((analyseTemperature p t).1.type = "success" ↔
      (p.temperature_optimal.min ≤ t ∧ t ≤ p.temperature_optimal.max))
    ∧ (analyseTemperature p t).1.parametre = "temperature" := by
  unfold analyseTemperature
  split_ifs with h1 h2
  · refine ⟨⟨fun hcon =>
      absurd (show ("warning" : String) = "success" from hcon) (by decide), ?_⟩, rfl⟩
    rintro ⟨hle, _⟩
    exact absurd h1 (not_lt.2 hle)
  · refine ⟨⟨fun hcon =>
      absurd (show ("critical" : String) = "success" from hcon) (by decide), ?_⟩, rfl⟩
    rintro ⟨_, hge⟩
    exact absurd h2 (not_lt.2 hge)
  · rw [not_lt] at h1 h2
    exact ⟨⟨fun _ => ⟨h1, h2⟩, fun _ => rfl⟩, rfl⟩

/-- Helper: a filtered three-element list is non-empty iff the predicate
holds of one of the elements. -/
theorem filter3_length_pos (p : Alerte → Bool) (a1 a2 a3 : Alerte) :
    0 < ((([a1, a2, a3]).filter p).length) ↔
      (p a1 = true ∨ p a2 = true ∨ p a3 = true) := by
  cases hpa : p a1 <;> cases hpb : p a2 <;> cases hpc : p a3 <;>
    simp [List.filter, hpa, hpb, hpc]

/-- Helper: the global status computed from the critical/warning counts of
the three alerts (parametres.js 251-257). -/
theorem statut_of_alertes (a1 a2 a3 : Alerte) :
    ((a1.type = "critical" ∨ a2.type = "critical" ∨ a3.type = "critical") →
      (if (([a1, a2, a3].filter (fun a => a.type == "critical")).length) > 0 then ("critique")
       else if (([a1, a2, a3].filter (fun a => a.type == "warning")).length) > 0 then ("alerte")
       else ("optimal")) = "critique")
    ∧ (¬(a1.type = "critical" ∨ a2.type = "critical" ∨ a3.type = "critical") →
        (a1.type = "warning" ∨ a2.type = "warning" ∨ a3.type = "warning") →
      (if (([a1, a2, a3].filter (fun a => a.type == "critical")).length) > 0 then ("critique")
       else if (([a1, a2, a3].filter (fun a => a.type == "warning")).length) > 0 then ("alerte")
       else ("optimal")) = "alerte")
    ∧ (¬(a1.type = "critical" ∨ a2.type = "critical" ∨ a3.type = "critical") →
        ¬(a1.type = "warning" ∨ a2.type = "warning" ∨ a3.type = "warning") →
      (if (([a1, a2, a3].filter (fun a => a.type == "critical")).length) > 0 then ("critique")
       else if (([a1, a2, a3].filter (fun a => a.type == "warning")).length) > 0 then ("alerte")
       else ("optimal")) = "optimal") := by
  have hcrit := filter3_length_pos (fun a => a.type == "critical") a1 a2 a3
  have hwarn := filter3_length_pos (fun a => a.type == "warning") a1 a2 a3
  simp only [beq_iff_eq] at hcrit hwarn
  refine ⟨?_, ?_, ?_⟩
  · intro h
    rw [if_pos (hcrit.2 h)]
  · intro hnc hw
    rw [if_neg (fun hpos => hnc (hcrit.1 hpos)), if_pos (hwarn.2 hw)]
  · intro hnc hnw
    rw [if_neg (fun hpos => hnc (hcrit.1 hpos)), if_neg (fun hpos => hnw (hwarn.1 hpos))]

/-- Claim C10: for a measurement of a plant type present in
PLANT_DATABASE, `analyserParametresPlante` returns exactly three alerts,
one each for pH, dissolved oxygen and water temperature; the pH and
temperature alerts are `success` exactly when the value lies in the
optimal range of the plant and the oxygen alert exactly when it lies in
`[5.0, 8.0]`; and `statutGlobal` is `critique` if any alert is `critical`,
otherwise `alerte` if any alert is `warning`, otherwise `optimal`. -/
theorem analyserParametresPlante_spec (m : Mesure) (p : Plante)
    (hp : PLANT_DATABASE m.planteType = some p) :
    ∃ a, analyserParametresPlante m = some a
      ∧ ∃ aPH aOx aT,
        a.alertes = [aPH, aOx, aT]
        ∧ aPH.parametre = "pH" ∧ aOx.parametre = "oxygene" ∧ aT.parametre = "temperature"
        ∧ (aPH.type = "success" ↔
            (p.pH_optimal.min ≤ m.phMesure ∧ m.phMesure ≤ p.pH_optimal.max))
        ∧ (aOx.type = "success" ↔ ((5 : ℚ) ≤ m.oxygeneMesure ∧ m.oxygeneMesure ≤ 8))
        ∧ (aT.type = "success" ↔
            (p.temperature_optimal.min ≤ m.temperatureEau
             ∧ m.temperatureEau ≤ p.temperature_optimal.max))
        ∧ ((aPH.type = "critical" ∨ aOx.type = "critical" ∨ aT.type = "critical") →
            a.statutGlobal = "critique")
        ∧ (¬(aPH.type = "critical" ∨ aOx.type = "critical" ∨ aT.type = "critical") →
            (aPH.type = "warning" ∨ aOx.type = "warning" ∨ aT.type = "warning") →
            a.statutGlobal = "alerte")
        ∧ (¬(aPH.type = "critical" ∨ aOx.type = "critical" ∨ aT.type = "critical") →
            ¬(aPH.type = "warning" ∨ aOx.type = "warning" ∨ aT.type = "warning") →
            a.statutGlobal = "optimal") := by
  unfold analyserParametresPlante
  rw [hp, Option.map_some']
  have hstat := statut_of_alertes (analysePH p m.phMesure).1
    (analyseOxygene m.oxygeneMesure).1 (analyseTemperature p m.temperatureEau).1
  exact ⟨_, rfl, (analysePH p m.phMesure).1, (analyseOxygene m.oxygeneMesure).1,
    (analyseTemperature p m.temperatureEau).1, rfl,
    (analysePH_type p m.phMesure).2, (analyseOxygene_type m.oxygeneMesure).2,
    (analyseTemperature_type p m.temperatureEau).2,
    (analysePH_type p m.phMesure).1, (analyseOxygene_type m.oxygeneMesure).1,
    (analyseTemperature_type p m.temperatureEau).1,
    hstat.1, hstat.2.1, hstat.2.2⟩

/-- Witness for C10: a tomato measurement with all three parameters in
range is analysed as globally optimal. -/
theorem analyserParametresPlante_spec_witness :
    ∃ a, analyserParametresPlante
        { planteType := "tomate", phMesure := 6, oxygeneMesure := 6, temperatureEau := 20 }
        = some a
      ∧ a.statutGlobal = "optimal" := by
  obtain ⟨a, ha, aPH, aOx, aT, halt, hpar1, hpar2, hpar3, hph, hox, ht, hcrit, hwarn, hopt⟩ :=
    analyserParametresPlante_spec
      { planteType := "tomate", phMesure := 6, oxygeneMesure := 6, temperatureEau := 20 }
      { nom := "Tomate", pH_optimal := ⟨5.5, 6.5⟩, ec_optimal := ⟨2.0, 5.0⟩,
        ppm_optimal := ⟨1000, 2500⟩, temperature_optimal := ⟨18, 24⟩ }
      rfl
  have hph' : aPH.type = "success" := hph.2 ⟨by norm_num, by norm_num⟩
  have hox' : aOx.type = "success" := hox.2 ⟨by norm_num, by norm_num⟩
  have ht' : aT.type = "success" := ht.2 ⟨by norm_num, by norm_num⟩
  refine ⟨a, ha, hopt ?_ ?_⟩
  · rw [hph', hox', ht']
    decide
  · rw [hph', hox', ht']
    decide

end Parametres

end HydroCare
